import Mathlib

/-!
# mobile-predictor: the cgo predictor layer of `cbits.go`

A shallow embedding of `New`, `Predict`, `ReadPredictionOutput` and `Close`
(package `mpredictor`, file `cbits.go`) and the properties of them that the
design document states.

Modelling conventions.

* Go `int` is a 64-bit signed integer and C `int` a 32-bit one: values are
  `Int`, and every place where the source multiplies, increments or converts
  is wrapped explicitly (`wrapInt`, `wrapCInt`).
* `C.PredictorContext` is a C pointer: a `Nat` address, `0` being `nil`.
* A `*PredictorData` argument is an `Option PredictorData` (`none` is the nil
  pointer).
* The functions of the two native engines, `com.IsFile`, the label file and
  `sort.Sort` over `dlframework.Features` live outside `cbits.go`; they are
  the fields of `Runtime`, over an arbitrary native state `σ`.
* Every call that leaves `cbits.go` towards an engine or the file system is
  appended to `World.calls`, so that "no engine call was made" is a statement
  about that list.
* A `float32` score is only ever compared, never computed with: scores are
  rationals (NaN is outside the model).
* A Go run-time panic is the `Result.panic` outcome. `make` panics on a
  negative length and on one whose size exceeds the run-time limit `maxAlloc`;
  running out of memory below that limit is not modelled.
* The package initialiser `init`, which calls `C.InitTflite()` once at load
  time, takes part in none of the functions below and is left out.
-/

namespace MPredictor

/-! ## Machine integers -/

/-- Two's-complement wrap of a Go `int` (64 bits). -/
def wrapInt (x : Int) : Int := (x + 2 ^ 63) % 2 ^ 64 - 2 ^ 63

/-- Two's-complement wrap of a C `int` / Go `int32` (32 bits): the conversions
`C.int(x)`, `int32(x)` and the range of an `int` returned from C. -/
def wrapCInt (x : Int) : Int := (x + 2 ^ 31) % 2 ^ 32 - 2 ^ 31

/-- The run-time limit `maxAlloc` on the size in bytes of one allocation, on the
64-bit targets with a 48-bit heap address space. -/
def maxAlloc : Int := 2 ^ 48

/-- The size in bytes of one `dlframework.Features` value, a slice header of
three words. -/
def featuresSize : Int := 24

/-! ## Hardware modes -/

def CPU_1_thread : Int := 1
def CPU_2_thread : Int := 2
def CPU_3_thread : Int := 3
def CPU_4_thread : Int := 4
def CPU_5_thread : Int := 5
def CPU_6_thread : Int := 6
def CPU_7_thread : Int := 7
def CPU_8_thread : Int := 8
def GPU : Int := 9
def NNAPI : Int := 10
def DSP : Int := 11

/-! ## Data model -/

/-- The C type `PredictorContext` (an untyped pointer); `0` is `nil`. -/
abbrev PredictorContext := Nat

/-- The struct `PredictorData`. -/
structure PredictorData where
  ctx : PredictorContext
  mode : Int
  batch : Int
deriving DecidableEq, Repr

/-- A Go `error` value, identified with its message. -/
structure GoError where
  msg : String
deriving DecidableEq, Repr

/-- A `dlframework.Feature` as built by `feature.New` in `ReadPredictionOutput`:
classification index, classification label and probability. -/
structure Feature where
  index : Int
  label : String
  probability : ℚ
deriving DecidableEq

/-- The indexing expressions of `ReadPredictionOutput` that can go out of range. -/
inductive Site
  | labels
  | slice
  | features
  | ranking
deriving DecidableEq, Repr

/-- The run-time panics `cbits.go` can raise. -/
inductive Panic
  /-- A field read through a nil `*PredictorData`. -/
  | nilDereference
  /-- The slice expression `[:length:length]` on the `[1 << 15]float32` array. -/
  | sliceBounds (length : Int)
  /-- The explicit `panic(err)` after `os.Open(labelFile)`. -/
  | openFailed (path : String)
  /-- The expression `make([]dlframework.Features, batchSize)` with a negative
  length or one whose size in bytes exceeds `maxAlloc` (`makeslice: len out of range`). -/
  | makeSliceLen (len : Int)
  /-- An index expression `xs[i]` with `i` outside `0 .. len(xs) - 1`. -/
  | indexOutOfRange (site : Site) (i : Nat) (len : Nat)
deriving DecidableEq, Repr

/-- The outcome of running a Go function: it returns, or it panics. -/
inductive Result (α : Type) where
  | ret (a : α)
  | panic (p : Panic)
deriving DecidableEq

/-- Sequencing of outcomes: a panic aborts what follows. -/
def Result.bind {α β : Type} : Result α → (α → Result β) → Result β
  | .ret a, f => f a
  | .panic p, _ => .panic p

/-- The calls that leave `cbits.go`. -/
inductive Call
  | IsFile (path : String)
  | NewTflite (model : String) (batch mode : Int) (verbose profile : Bool)
  | NewSnpe (model : String) (batch mode : Int) (verbose profile : Bool)
  | PredictTflite (ctx : PredictorContext) (quantize : Bool)
  | PredictSnpe (ctx : PredictorContext) (quantize : Bool)
  | GetPredLenTflite (ctx : PredictorContext)
  | GetPredLenSnpe (ctx : PredictorContext)
  | GetPredictionsTflite (ctx : PredictorContext)
  | GetPredictionsSnpe (ctx : PredictorContext)
  | Open (path : String)
  | DeleteTflite (ctx : PredictorContext)
  | DeleteSnpe (ctx : PredictorContext)
deriving DecidableEq, Repr

/-- What `cbits.go` calls but does not define, over a native state `σ`.
The engine functions are those of `cbits/tflite_predictor.hpp` and
`cbits/snpe_predictor.hpp`; `GetPredictions*` answers `none` for a NULL
pointer and otherwise the floats stored from the returned address on.
`readLines` is `os.Open` followed by the `bufio.Scanner` loop (`none` when the
file cannot be opened). `sortFeatures` is `sort.Sort` on `dlframework.Features`:
neither the algorithm nor `Less` is fixed here. -/
structure Runtime (σ : Type) where
  IsFile : String → Bool
  NewTflite : String → Int → Int → Bool → Bool → σ → PredictorContext × σ
  NewSnpe : String → Int → Int → Bool → Bool → σ → PredictorContext × σ
  PredictTflite : PredictorContext → List Nat → List Nat → Bool → σ → σ
  PredictSnpe : PredictorContext → List Nat → List Nat → Bool → σ → σ
  GetPredLenTflite : PredictorContext → σ → Int × σ
  GetPredLenSnpe : PredictorContext → σ → Int × σ
  GetPredictionsTflite : PredictorContext → σ → Option (Nat → ℚ) × σ
  GetPredictionsSnpe : PredictorContext → σ → Option (Nat → ℚ) × σ
  DeleteTflite : PredictorContext → σ → σ
  DeleteSnpe : PredictorContext → σ → σ
  readLines : String → Option (List String)
  sortFeatures : List Feature → List Feature
  /-- The only write `sort.Sort` makes is `Swap`, which for `dlframework.Features`
  exchanges two entries of the slice: whatever `Less` answers, the sorted slice
  is a rearrangement of the one passed in. -/
  sortFeatures_perm : ∀ l, (sortFeatures l).Perm l

/-- The native state together with the calls made so far, oldest first. -/
structure World (σ : Type) where
  native : σ
  calls : List Call

/-- The world after a call `c` that left the native state as `s`. -/
def World.after {σ : Type} (w : World σ) (s : σ) (c : Call) : World σ :=
  ⟨s, w.calls ++ [c]⟩

variable {σ : Type}

/-! ## `PredictorData` helpers -/

/-- The method `Inc`: `pd.mode++; pd.batch++`. -/
def Inc (pd : PredictorData) : PredictorData :=
  { pd with mode := wrapInt (pd.mode + 1), batch := wrapInt (pd.batch + 1) }

/-- The function `NewPredictorData`: the zero value of the struct. -/
def NewPredictorData : PredictorData := ⟨0, 0, 0⟩

/-! ## `New` -/

/-- The function `New`. The pair is Go's `(*PredictorData, error)`. The last
`return` of the source, after the three-way `if`, is unreachable. -/
def New (R : Runtime σ) (framework model : String) (mode batch : Int)
    (verbose profile : Bool) (w : World σ) :
    (Option PredictorData × Option GoError) × World σ :=
  let modelFile := model
  let w0 := w.after w.native (.IsFile modelFile)
  if ¬ R.IsFile modelFile = true then
    ((none, some ⟨"file " ++ modelFile ++ " not found"⟩), w0)
  else if framework = "Tensorflow Lite" then
    let r := R.NewTflite modelFile (wrapCInt batch) (wrapCInt mode) verbose profile w0.native
    ((some ⟨r.1, mode, batch⟩, none),
      w0.after r.2 (.NewTflite modelFile (wrapCInt batch) (wrapCInt mode) verbose profile))
  else if framework = "Qualcomm SNPE" then
    let r := R.NewSnpe modelFile (wrapCInt batch) (wrapCInt mode) verbose profile w0.native
    ((some ⟨r.1, mode, batch⟩, none),
      w0.after r.2 (.NewSnpe modelFile (wrapCInt batch) (wrapCInt mode) verbose profile))
  else
    ((none, some ⟨framework ++ " framework not supported"⟩), w0)

/-! ## `Predict` -/

/-- The function `Predict`. `data` is the byte slice; both pointers handed to
the engine are the address of `data[0]`. The result is Go's `error`
(`none` is `nil`). -/
def Predict (R : Runtime σ) (framework : String) (p : Option PredictorData)
    (data : List Nat) (quantize : Bool) (w : World σ) :
    Result (Option GoError) × World σ :=
  if data.length = 0 then
    (.ret (some ⟨"image data is empty"⟩), w)
  else
    let ptr_quantize := data
    let ptr_float := data
    if quantize = true then
      if framework = "Tensorflow Lite" then
        match p with
        | none => (.panic .nilDereference, w)
        | some pd =>
          (.ret none, w.after (R.PredictTflite pd.ctx ptr_quantize ptr_float true w.native)
            (.PredictTflite pd.ctx true))
      else if framework = "Qualcomm SNPE" then
        match p with
        | none => (.panic .nilDereference, w)
        | some pd =>
          (.ret none, w.after (R.PredictSnpe pd.ctx ptr_quantize ptr_float true w.native)
            (.PredictSnpe pd.ctx true))
      else
        (.ret (some ⟨framework ++ " framework not supported"⟩), w)
    else
      if framework = "Tensorflow Lite" then
        match p with
        | none => (.panic .nilDereference, w)
        | some pd =>
          (.ret none, w.after (R.PredictTflite pd.ctx ptr_quantize ptr_float false w.native)
            (.PredictTflite pd.ctx false))
      else if framework = "Qualcomm SNPE" then
        match p with
        | none => (.panic .nilDereference, w)
        | some pd =>
          (.ret none, w.after (R.PredictSnpe pd.ctx ptr_quantize ptr_float false w.native)
            (.PredictSnpe pd.ctx false))
      else
        (.ret (some ⟨framework ++ " framework not supported"⟩), w)

/-! ## `Close` -/

/-- The function `Close`. The handle is passed by pointer and the body only
reads `p.ctx`; the value returned is the handle as it stands after the call. -/
def Close (R : Runtime σ) (framework : String) (p : Option PredictorData)
    (w : World σ) : Result PredictorData × World σ :=
  match p with
  | none => (.panic .nilDereference, w)
  | some pd =>
    if framework = "Tensorflow Lite" then
      (.ret pd, w.after (R.DeleteTflite pd.ctx w.native) (.DeleteTflite pd.ctx))
    else if framework = "Qualcomm SNPE" then
      (.ret pd, w.after (R.DeleteSnpe pd.ctx w.native) (.DeleteSnpe pd.ctx))
    else
      (.ret pd, w.after (R.DeleteTflite pd.ctx w.native) (.DeleteTflite pd.ctx))

/-! ## `ReadPredictionOutput` -/

/-- The call `feature.New(ClassificationIndex(int32(jj)), ClassificationLabel(labels[jj]),
Probability(slice[ii*featuresLen+jj]))`; the arguments are evaluated left to right. -/
def newFeature (labels : List String) (slice : List ℚ) (ii featuresLen jj : Nat) :
    Result Feature :=
  match labels[jj]? with
  | none => .panic (.indexOutOfRange .labels jj labels.length)
  | some l =>
    match slice[ii * featuresLen + jj]? with
    | none => .panic (.indexOutOfRange .slice (ii * featuresLen + jj) slice.length)
    | some pr => .ret ⟨wrapCInt jj, l, pr⟩

/-- The inner loop `for jj := 0; jj < featuresLen; jj++`, run over the values
`jjs` of `jj` that are still to come. -/
def fillRow (labels : List String) (slice : List ℚ) (ii featuresLen : Nat) :
    List Nat → Result (List Feature)
  | [] => .ret []
  | jj :: rest =>
    (newFeature labels slice ii featuresLen jj).bind fun f =>
      (fillRow labels slice ii featuresLen rest).bind fun fs => .ret (f :: fs)

/-- The outer loop `for ii := 0; ii < batchSize; ii++`, run over the values
`iis` of `ii` that are still to come: fill `rprobs`, sort it, store it. -/
def rankItems (sortFeatures : List Feature → List Feature) (labels : List String)
    (slice : List ℚ) (featuresLen : Nat) : List Nat → Result (List (List Feature))
  | [] => .ret []
  | ii :: rest =>
    (fillRow labels slice ii featuresLen (List.range featuresLen)).bind fun rprobs =>
      (rankItems sortFeatures labels slice featuresLen rest).bind fun fs =>
        .ret (sortFeatures rprobs :: fs)

/-- The expression `features[0][k].GetClassification().GetLabel()`. -/
def topLabel (features : List (List Feature)) (k : Nat) : Result String :=
  match features[0]? with
  | none => .panic (.indexOutOfRange .features 0 features.length)
  | some row =>
    match row[k]? with
    | none => .panic (.indexOutOfRange .ranking k row.length)
    | some f => .ret f.label

/-- Lines 197 to 205: read `top1 .. top5` and join their labels with `|`. -/
def topConcatenated (features : List (List Feature)) : Result String :=
  (topLabel features 0).bind fun top1 =>
  (topLabel features 1).bind fun top2 =>
  (topLabel features 2).bind fun top3 =>
  (topLabel features 3).bind fun top4 =>
  (topLabel features 4).bind fun top5 =>
    .ret (top1 ++ "|" ++ top2 ++ "|" ++ top3 ++ "|" ++ top4 ++ "|" ++ top5)

/-- Lines 169 to 205 of `ReadPredictionOutput`: read the labels, rank every
batch item, return the five first labels of item 0. -/
def rankAndJoin (R : Runtime σ) (batchSize : Int) (labelFile : String)
    (slice : List ℚ) (w : World σ) : Result (String × Option GoError) × World σ :=
  let w1 := w.after w.native (.Open labelFile)
  match R.readLines labelFile with
  | none => (.panic (.openFailed labelFile), w1)
  | some labels =>
    if batchSize < 0 ∨ maxAlloc < featuresSize * batchSize then
      (.panic (.makeSliceLen batchSize), w1)
    else
      let featuresLen := (Int.tdiv (slice.length : Int) batchSize).toNat
      ((rankItems R.sortFeatures labels slice featuresLen (List.range batchSize.toNat)).bind
        fun features => (topConcatenated features).bind fun s => .ret (s, none), w1)

/-- The slice expression `(*[1 << 15]float32)(unsafe.Pointer(cPredictions))[:length:length]`
followed by the rest of the function. -/
def sliceAndRank (R : Runtime σ) (batchSize : Int) (labelFile : String)
    (cPredictions : Nat → ℚ) (length : Int) (w : World σ) :
    Result (String × Option GoError) × World σ :=
  if 0 ≤ length ∧ length ≤ 2 ^ 15 then
    rankAndJoin R batchSize labelFile ((List.range length.toNat).map cPredictions) w
  else
    (.panic (.sliceBounds length), w)

/-- Lines 149 to 205 of `ReadPredictionOutput`, entered with the value of `predLen`. -/
def readWithPredLen (R : Runtime σ) (framework : String) (pd : PredictorData)
    (labelFile : String) (predLen : Int) (w : World σ) :
    Result (String × Option GoError) × World σ :=
  let batchSize := pd.batch
  let length := wrapInt (batchSize * predLen)
  if pd.ctx = 0 then
    (.ret ("", some ⟨"empty predictor context"⟩), w)
  else if framework = "Tensorflow Lite" then
    let r := R.GetPredictionsTflite pd.ctx w.native
    let w1 := w.after r.2 (.GetPredictionsTflite pd.ctx)
    match r.1 with
    | none => (.ret ("", some ⟨"empty predictions"⟩), w1)
    | some cPredictions => sliceAndRank R batchSize labelFile cPredictions length w1
  else if framework = "Qualcomm SNPE" then
    let r := R.GetPredictionsSnpe pd.ctx w.native
    let w1 := w.after r.2 (.GetPredictionsSnpe pd.ctx)
    match r.1 with
    | none => (.ret ("", some ⟨"empty predictions"⟩), w1)
    | some cPredictions => sliceAndRank R batchSize labelFile cPredictions length w1
  else
    rankAndJoin R batchSize labelFile [] w

/-- The function `ReadPredictionOutput`. The pair is Go's `(string, error)`. -/
def ReadPredictionOutput (R : Runtime σ) (framework : String) (p : Option PredictorData)
    (labelFile : String) (w : World σ) : Result (String × Option GoError) × World σ :=
  match p with
  | none => (.panic .nilDereference, w)
  | some pd =>
    let batchSize := pd.batch
    if batchSize = 0 then
      (.ret ("", some ⟨"null batch"⟩), w)
    else if framework = "Tensorflow Lite" then
      let r := R.GetPredLenTflite pd.ctx w.native
      let predLen := wrapCInt r.1
      let w1 := w.after r.2 (.GetPredLenTflite pd.ctx)
      if predLen = 0 then
        (.ret ("", some ⟨"null predLen"⟩), w1)
      else
        readWithPredLen R framework pd labelFile predLen w1
    else if framework = "Qualcomm SNPE" then
      let r := R.GetPredLenSnpe pd.ctx w.native
      let predLen := wrapCInt r.1
      let w1 := w.after r.2 (.GetPredLenSnpe pd.ctx)
      if predLen = 0 then
        (.ret ("", some ⟨"null predLen"⟩), w1)
      else
        readWithPredLen R framework pd labelFile predLen w1
    else
      readWithPredLen R framework pd labelFile 0 w

/-- The value the variable `predLen` holds once lines 136 to 147 have run
without returning, from the native state `s`. -/
def reportedPredLen (R : Runtime σ) (framework : String) (ctx : PredictorContext) (s : σ) : Int :=
  if framework = "Tensorflow Lite" then wrapCInt (R.GetPredLenTflite ctx s).1
  else if framework = "Qualcomm SNPE" then wrapCInt (R.GetPredLenSnpe ctx s).1
  else 0

/-- The native state once lines 136 to 147 have run, from the native state `s`. -/
def stateAfterPredLen (R : Runtime σ) (framework : String) (ctx : PredictorContext) (s : σ) : σ :=
  if framework = "Tensorflow Lite" then (R.GetPredLenTflite ctx s).2
  else if framework = "Qualcomm SNPE" then (R.GetPredLenSnpe ctx s).2
  else s

/-- The score memory the engine of `framework` hands out for `ctx` in the native
state `s` (`none`: a NULL pointer, or no engine of that name). -/
def reportedPredictions (R : Runtime σ) (framework : String) (ctx : PredictorContext) (s : σ) :
    Option (Nat → ℚ) :=
  if framework = "Tensorflow Lite" then (R.GetPredictionsTflite ctx s).1
  else if framework = "Qualcomm SNPE" then (R.GetPredictionsSnpe ctx s).1
  else none

/-- The triple the loops build for class `jj` of batch item `ii`, when both
index expressions are in range. -/
def triple (labels : List String) (slice : List ℚ) (ii featuresLen jj : Nat) : Feature :=
  ⟨wrapCInt jj, labels.getD jj "", slice.getD (ii * featuresLen + jj) 0⟩

/-- The triples of batch item 0, read straight from the label table and the
score memory: class `jj` carries label `labels[jj]` and score `mem jj`. -/
def firstItem (labels : List String) (mem : Nat → ℚ) (n : Nat) : List Feature :=
  (List.range n).map fun (jj : Nat) => ⟨(jj : Int), labels.getD jj "", mem jj⟩

/-! ## Concrete runtimes, for evaluation -/

/-- Higher probability first. -/
def probGE (a b : Feature) : Prop := b.probability ≤ a.probability

instance : DecidableRel probGE :=
  fun a b => inferInstanceAs (Decidable (b.probability ≤ a.probability))

/-- The sort of the concrete runtimes: an insertion sort by non-increasing
probability. It stands in for `sort.Sort` there; what `sort.Sort` does with
`dlframework.Features` is not part of `cbits.go`. -/
def demoSort (l : List Feature) : List Feature := List.insertionSort probGE l

/-- A runtime over the trivial native state: the files that exist are `files`,
the constructors answer the context `1`, both engines report `n` scores per
item and store `scores` (zeros after them), the label file holds `labels`. -/
def demoRuntime (files : List String) (n : Int) (scores : List ℚ)
    (labels : List String) : Runtime Unit where
  IsFile := fun path => decide (path ∈ files)
  NewTflite := fun _ _ _ _ _ s => (1, s)
  NewSnpe := fun _ _ _ _ _ s => (1, s)
  PredictTflite := fun _ _ _ _ s => s
  PredictSnpe := fun _ _ _ _ s => s
  GetPredLenTflite := fun _ s => (n, s)
  GetPredLenSnpe := fun _ s => (n, s)
  GetPredictionsTflite := fun _ s => (some fun i => scores.getD i 0, s)
  GetPredictionsSnpe := fun _ s => (some fun i => scores.getD i 0, s)
  DeleteTflite := fun _ s => s
  DeleteSnpe := fun _ s => s
  readLines := fun _ => some labels
  sortFeatures := demoSort
  sortFeatures_perm := fun l => List.perm_insertionSort probGE l

/-- The runtime `demoRuntime` with both engines answering a NULL score pointer. -/
def nullScoresRuntime (files : List String) (n : Int) (labels : List String) : Runtime Unit :=
  { demoRuntime files n [] labels with
    GetPredictionsTflite := fun _ s => (none, s)
    GetPredictionsSnpe := fun _ s => (none, s) }

/-- The runtime `demoRuntime` with a label file that cannot be opened. -/
def noLabelsRuntime (files : List String) (n : Int) (scores : List ℚ) : Runtime Unit :=
  { demoRuntime files n scores [] with readLines := fun _ => none }

/-- The world before any call. -/
def World.init : World Unit := ⟨(), []⟩

/-- The scores of the round-trip scenario: 0.1, 0.5, 0.05, 0.3, 0.05. -/
def demoScores : List ℚ := [mkRat 1 10, mkRat 1 2, mkRat 1 20, mkRat 3 10, mkRat 1 20]

/-- The labels of the round-trip scenario. -/
def demoLabels : List String := ["cat", "dog", "bird", "fish", "frog"]

/-- The score memory of `demoRuntime` when it stores `scores`. -/
def demoMem (scores : List ℚ) : Nat → ℚ := fun i => scores.getD i 0

/-- The scenario "create, then close at once": `New`, then `Close` on the
handle `New` returned. -/
def newThenClose (R : Runtime σ) (framework model : String) (mode batch : Int)
    (verbose profile : Bool) (w : World σ) : Result PredictorData × World σ :=
  Close R framework (New R framework model mode batch verbose profile w).1.1
    (New R framework model mode batch verbose profile w).2

/-! ## Outcomes -/

theorem Result.bind_eq_ret {α β : Type} (r : Result α) (f : α → Result β) (b : β) :
    r.bind f = .ret b ↔ ∃ a, r = .ret a ∧ f a = .ret b := by
  cases r <;> simp [Result.bind]

/-- What lines 169 to 205 return, when they return, carries no error. -/
theorem rankAndJoin_ret (R : Runtime σ) (batchSize : Int) (labelFile : String)
    (slice : List ℚ) (w : World σ) (s : String) (e : Option GoError)
    (h : (rankAndJoin R batchSize labelFile slice w).1 = .ret (s, e)) : e = none := by
  unfold rankAndJoin at h
  cases hl : R.readLines labelFile with
  | none => simp [hl] at h
  | some labels =>
    simp only [hl] at h
    split at h
    · simp at h
    · simp only [Result.bind_eq_ret] at h
      obtain ⟨_, _, _, _, h⟩ := h
      simp only [Result.ret.injEq, Prod.mk.injEq] at h
      exact h.2.symm

theorem sliceAndRank_ret (R : Runtime σ) (batchSize : Int) (labelFile : String)
    (cPredictions : Nat → ℚ) (length : Int) (w : World σ) (s : String) (e : Option GoError)
    (h : (sliceAndRank R batchSize labelFile cPredictions length w).1 = .ret (s, e)) :
    e = none := by
  unfold sliceAndRank at h
  split at h
  · exact rankAndJoin_ret R _ _ _ _ s e h
  · simp at h

/-- The error `empty predictor context` comes from the nil check of line 150 only. -/
theorem readWithPredLen_empty_context (R : Runtime σ) (framework : String)
    (pd : PredictorData) (labelFile : String) (predLen : Int) (w : World σ)
    (h : (readWithPredLen R framework pd labelFile predLen w).1 =
      .ret ("", some ⟨"empty predictor context"⟩)) : pd.ctx = 0 := by
  by_contra hctx
  unfold readWithPredLen at h
  simp only [hctx, if_false] at h
  split at h
  · split at h
    · simp at h
    · exact absurd (sliceAndRank_ret R _ _ _ _ _ _ _ h) (by simp)
  · split at h
    · split at h
      · simp at h
      · exact absurd (sliceAndRank_ret R _ _ _ _ _ _ _ h) (by simp)
    · exact absurd (rankAndJoin_ret R _ _ _ _ _ _ h) (by simp)

theorem ReadPredictionOutput_empty_context (R : Runtime σ) (framework : String)
    (pd : PredictorData) (labelFile : String) (w : World σ)
    (h : (ReadPredictionOutput R framework (some pd) labelFile w).1 =
      .ret ("", some ⟨"empty predictor context"⟩)) : pd.ctx = 0 := by
  unfold ReadPredictionOutput at h
  simp only at h
  split at h
  · simp at h
  · split at h
    · split at h
      · simp at h
      · exact readWithPredLen_empty_context R _ _ _ _ _ h
    · split at h
      · split at h
        · simp at h
        · exact readWithPredLen_empty_context R _ _ _ _ _ h
      · exact readWithPredLen_empty_context R _ _ _ _ _ h

/-! ## Machine integers -/

theorem wrapInt_of_bounds (x : Int) (h1 : -2 ^ 63 ≤ x) (h2 : x < 2 ^ 63) : wrapInt x = x := by
  unfold wrapInt
  rw [Int.emod_eq_of_lt (by omega) (by omega)]
  omega

theorem wrapCInt_of_bounds (x : Int) (h1 : -2 ^ 31 ≤ x) (h2 : x < 2 ^ 31) : wrapCInt x = x := by
  unfold wrapCInt
  rw [Int.emod_eq_of_lt (by omega) (by omega)]
  omega

theorem wrapCInt_range (x : Int) : -2 ^ 31 ≤ wrapCInt x ∧ wrapCInt x < 2 ^ 31 := by
  unfold wrapCInt
  have h1 := Int.emod_nonneg (x + 2 ^ 31) (show (2 : Int) ^ 32 ≠ 0 by norm_num)
  have h2 := Int.emod_lt_of_pos (x + 2 ^ 31) (show (0 : Int) < 2 ^ 32 by norm_num)
  omega

/-! ## The loops -/

theorem newFeature_ret (labels : List String) (slice : List ℚ) (ii featuresLen jj : Nat)
    (h1 : jj < labels.length) (h2 : ii * featuresLen + jj < slice.length) :
    newFeature labels slice ii featuresLen jj = .ret (triple labels slice ii featuresLen jj) := by
  simp [newFeature, triple, List.getElem?_eq_getElem h1, List.getElem?_eq_getElem h2,
    List.getD_eq_getElem _ _ h1, List.getD_eq_getElem _ _ h2]

theorem newFeature_label_panic (labels : List String) (slice : List ℚ) (ii featuresLen jj : Nat)
    (h1 : labels.length ≤ jj) :
    newFeature labels slice ii featuresLen jj =
      .panic (.indexOutOfRange .labels jj labels.length) := by
  simp [newFeature, List.getElem?_eq_none h1]

/-- A feature was built only if its label lookup was in range. -/
theorem newFeature_ret_inv (labels : List String) (slice : List ℚ) (ii featuresLen jj : Nat)
    (f : Feature) (h : newFeature labels slice ii featuresLen jj = .ret f) :
    jj < labels.length := by
  by_contra hlt
  rw [newFeature_label_panic _ _ _ _ _ (by omega)] at h
  cases h

theorem fillRow_ret (labels : List String) (slice : List ℚ) (ii featuresLen : Nat) :
    ∀ jjs : List Nat,
      (∀ jj ∈ jjs, jj < labels.length ∧ ii * featuresLen + jj < slice.length) →
      fillRow labels slice ii featuresLen jjs =
        .ret (jjs.map (triple labels slice ii featuresLen))
  | [], _ => rfl
  | jj :: rest, h => by
    have hjj := h jj (List.mem_cons_self _ _)
    have hrest := fillRow_ret labels slice ii featuresLen rest
      (fun k hk => h k (List.mem_cons_of_mem _ hk))
    simp [fillRow, newFeature_ret _ _ _ _ _ hjj.1 hjj.2, hrest, Result.bind]

theorem fillRow_ret_inv (labels : List String) (slice : List ℚ) (ii featuresLen : Nat) :
    ∀ (jjs : List Nat) (fs : List Feature),
      fillRow labels slice ii featuresLen jjs = .ret fs →
      fs.length = jjs.length ∧ ∀ jj ∈ jjs, jj < labels.length
  | [], fs, h => by
    simp only [fillRow, Result.ret.injEq] at h
    subst h
    simp
  | jj :: rest, fs, h => by
    simp only [fillRow, Result.bind_eq_ret] at h
    obtain ⟨f, hf, fs1, hfs1, h⟩ := h
    simp only [Result.ret.injEq] at h
    subst h
    have ih := fillRow_ret_inv labels slice ii featuresLen rest fs1 hfs1
    refine ⟨by simp [ih.1], ?_⟩
    intro k hk
    rcases List.mem_cons.mp hk with rfl | hk
    · exact newFeature_ret_inv _ _ _ _ _ _ hf
    · exact ih.2 k hk

theorem rankItems_ret (sortFeatures : List Feature → List Feature) (labels : List String)
    (slice : List ℚ) (featuresLen : Nat) :
    ∀ iis : List Nat,
      (∀ ii ∈ iis, ∀ jj, jj < featuresLen →
        jj < labels.length ∧ ii * featuresLen + jj < slice.length) →
      rankItems sortFeatures labels slice featuresLen iis =
        .ret (iis.map fun ii =>
          sortFeatures ((List.range featuresLen).map (triple labels slice ii featuresLen)))
  | [], _ => rfl
  | ii :: rest, h => by
    have hrow := fillRow_ret labels slice ii featuresLen (List.range featuresLen)
      (fun jj hjj => h ii (List.mem_cons_self _ _) jj (List.mem_range.mp hjj))
    have hrest := rankItems_ret sortFeatures labels slice featuresLen rest
      (fun k hk => h k (List.mem_cons_of_mem _ hk))
    simp [rankItems, hrow, hrest, Result.bind]

/-- When the outer loop completes over a non-empty range, every label lookup
was in range and the first ranking has one entry per class. -/
theorem rankItems_ret_inv (sortFeatures : List Feature → List Feature)
    (hperm : ∀ l, (sortFeatures l).Perm l) (labels : List String)
    (slice : List ℚ) (featuresLen : Nat) (ii : Nat) (rest : List Nat)
    (features : List (List Feature))
    (h : rankItems sortFeatures labels slice featuresLen (ii :: rest) = .ret features) :
    featuresLen ≤ labels.length ∧
      ∃ row, features[0]? = some row ∧ row.length = featuresLen := by
  simp only [rankItems, Result.bind_eq_ret] at h
  obtain ⟨rprobs, hrow, fs, _, h⟩ := h
  simp only [Result.ret.injEq] at h
  subst h
  have hinv := fillRow_ret_inv labels slice ii featuresLen _ _ hrow
  refine ⟨?_, sortFeatures rprobs, by simp, ?_⟩
  · by_contra hlt
    have := hinv.2 labels.length (List.mem_range.mpr (by omega))
    omega
  · rw [(hperm rprobs).length_eq, hinv.1, List.length_range]

theorem topLabel_ret (features : List (List Feature)) (row : List Feature) (k : Nat)
    (h0 : features[0]? = some row) (hk : k < row.length) :
    topLabel features k = .ret row[k].label := by
  simp [topLabel, h0, List.getElem?_eq_getElem hk]

theorem topLabel_panic (features : List (List Feature)) (row : List Feature) (k : Nat)
    (h0 : features[0]? = some row) (hk : row.length ≤ k) :
    topLabel features k = .panic (.indexOutOfRange .ranking k row.length) := by
  simp [topLabel, h0, List.getElem?_eq_none hk]

theorem topLabel_ret_inv (features : List (List Feature)) (k : Nat) (s : String)
    (h : topLabel features k = .ret s) :
    ∃ row, features[0]? = some row ∧ k < row.length := by
  unfold topLabel at h
  cases h0 : features[0]? with
  | none => simp [h0] at h
  | some row =>
    refine ⟨row, rfl, ?_⟩
    by_contra hk
    simp [h0, List.getElem?_eq_none (show row.length ≤ k by omega)] at h

theorem topConcatenated_ret (features : List (List Feature)) (row : List Feature)
    (h0 : features[0]? = some row) (h5 : 5 ≤ row.length) :
    topConcatenated features =
      .ret (row[0].label ++ "|" ++ row[1].label ++ "|" ++ row[2].label ++ "|" ++
        row[3].label ++ "|" ++ row[4].label) := by
  simp [topConcatenated, topLabel_ret features row _ h0 (show 0 < row.length by omega),
    topLabel_ret features row _ h0 (show 1 < row.length by omega),
    topLabel_ret features row _ h0 (show 2 < row.length by omega),
    topLabel_ret features row _ h0 (show 3 < row.length by omega),
    topLabel_ret features row _ h0 (show 4 < row.length by omega), Result.bind]

theorem topConcatenated_ret_inv (features : List (List Feature)) (s : String)
    (h : topConcatenated features = .ret s) :
    ∃ row, features[0]? = some row ∧ 5 ≤ row.length := by
  simp only [topConcatenated, Result.bind_eq_ret] at h
  obtain ⟨_, _, _, _, _, _, _, _, t5, h5, _⟩ := h
  obtain ⟨row, h0, hk⟩ := topLabel_ret_inv features 4 t5 h5
  exact ⟨row, h0, by omega⟩

/-- With fewer than five entries in the first ranking, the first of the reads
`features[0][0] .. features[0][4]` that is out of range panics. -/
theorem topConcatenated_short (features : List (List Feature)) (row : List Feature)
    (h0 : features[0]? = some row) (h5 : row.length < 5) :
    topConcatenated features = .panic (.indexOutOfRange .ranking row.length row.length) := by
  have hcases : row.length = 0 ∨ row.length = 1 ∨ row.length = 2 ∨ row.length = 3 ∨
      row.length = 4 := by omega
  rcases hcases with h | h | h | h | h
  · simp [topConcatenated, topLabel_panic features row 0 h0 (by omega), Result.bind, h]
  · simp [topConcatenated, topLabel_ret features row 0 h0 (by omega),
      topLabel_panic features row 1 h0 (by omega), Result.bind, h]
  · simp [topConcatenated, topLabel_ret features row 0 h0 (by omega),
      topLabel_ret features row 1 h0 (by omega),
      topLabel_panic features row 2 h0 (by omega), Result.bind, h]
  · simp [topConcatenated, topLabel_ret features row 0 h0 (by omega),
      topLabel_ret features row 1 h0 (by omega), topLabel_ret features row 2 h0 (by omega),
      topLabel_panic features row 3 h0 (by omega), Result.bind, h]
  · simp [topConcatenated, topLabel_ret features row 0 h0 (by omega),
      topLabel_ret features row 1 h0 (by omega), topLabel_ret features row 2 h0 (by omega),
      topLabel_ret features row 3 h0 (by omega),
      topLabel_panic features row 4 h0 (by omega), Result.bind, h]

theorem featuresLen_eq (b : Int) (n : Nat) (hb : 1 ≤ b) :
    (Int.tdiv (((b * n).toNat : Nat) : Int) b).toNat = n := by
  have hnn : 0 ≤ b * n := Int.mul_nonneg (by omega) (Int.ofNat_nonneg n)
  rw [Int.toNat_of_nonneg hnn, Int.mul_tdiv_cancel_left _ (by omega)]
  simp

/-- On a recognised backend with a non-nil context, a per-item length `n ≥ 1`,
a non-NULL score memory `mem`, a batch of at most `2 ^ 15` scores in all and
a label file that opens, `ReadPredictionOutput` is the two loops over the
first `batch * n` scores followed by the five reads. -/
theorem ReadPredictionOutput_ranked (R : Runtime σ) (framework : String) (pd : PredictorData)
    (labelFile : String) (w : World σ) (n : Nat) (mem : Nat → ℚ) (labels : List String)
    (hfw : framework = "Tensorflow Lite" ∨ framework = "Qualcomm SNPE")
    (hctx : pd.ctx ≠ 0) (hb : 1 ≤ pd.batch) (hn : 1 ≤ n) (hcap : pd.batch * n ≤ 2 ^ 15)
    (hlen : reportedPredLen R framework pd.ctx w.native = n)
    (hpred : reportedPredictions R framework pd.ctx
      (stateAfterPredLen R framework pd.ctx w.native) = some mem)
    (hlabels : R.readLines labelFile = some labels) :
    (ReadPredictionOutput R framework (some pd) labelFile w).1 =
      (rankItems R.sortFeatures labels ((List.range (pd.batch * n).toNat).map mem) n
        (List.range pd.batch.toNat)).bind fun features =>
          (topConcatenated features).bind fun s => .ret (s, none) := by
  have hnn : 0 ≤ pd.batch * n := Int.mul_nonneg (by omega) (Int.ofNat_nonneg n)
  have hwrap : wrapInt (pd.batch * n) = pd.batch * n :=
    wrapInt_of_bounds _ (by omega) (by omega)
  have hb0 : pd.batch ≠ 0 := by omega
  have hbneg : ¬ (pd.batch < 0 ∨ maxAlloc < featuresSize * pd.batch) := by
    have hle : pd.batch ≤ pd.batch * n := by nlinarith
    unfold maxAlloc featuresSize
    omega
  have hn0 : (n : Int) ≠ 0 := by omega
  have hfl := featuresLen_eq pd.batch n hb
  have hcap1 : pd.batch * n ≤ 32768 := by
    norm_num at hcap
    exact hcap
  rcases hfw with rfl | rfl
  · simp only [reportedPredLen, if_true] at hlen
    simp only [reportedPredictions, stateAfterPredLen, if_true] at hpred
    simp [ReadPredictionOutput, readWithPredLen, sliceAndRank, rankAndJoin, hb0, hlen, hn0,
      hctx, World.after, hpred, hwrap, hnn, hcap1, hlabels, hbneg, hfl]
  · simp only [reportedPredLen] at hlen
    simp only [reportedPredictions, stateAfterPredLen] at hpred
    simp at hlen hpred
    simp [ReadPredictionOutput, readWithPredLen, sliceAndRank, rankAndJoin, hb0, hlen, hn0,
      hctx, World.after, hpred, hwrap, hnn, hcap1, hlabels, hbneg, hfl]

theorem topConcatenated_congr (features features1 : List (List Feature))
    (h : features[0]? = features1[0]?) : topConcatenated features = topConcatenated features1 := by
  cases features with
  | nil =>
    cases features1 with
    | nil => rfl
    | cons row1 rest1 => simp at h
  | cons row rest =>
    cases features1 with
    | nil => simp at h
    | cons row1 rest1 =>
      have hrow : row = row1 := by simpa using h
      subst hrow
      simp [topConcatenated, topLabel]

theorem item_index_lt (b : Int) (n B ii jj : Nat) (hB : b.toNat = B) (hb : 1 ≤ b)
    (hii : ii < B) (hjj : jj < n) : ii * n + jj < (b * n).toNat := by
  have h1 : (b * n).toNat = B * n := by
    have : b = (B : Int) := by omega
    subst this
    rw [← Int.natCast_mul, Int.toNat_natCast]
  rw [h1]
  calc ii * n + jj < ii * n + n := by omega
    _ = (ii + 1) * n := by ring
    _ ≤ B * n := Nat.mul_le_mul_right n hii

/-- The row the inner loop builds for item 0 is `firstItem`. -/
theorem row_zero_eq (labels : List String) (mem : Nat → ℚ) (n len : Nat)
    (hn : n ≤ len) (hcap : len ≤ 2 ^ 15) :
    (List.range n).map (triple labels ((List.range len).map mem) 0 n) =
      firstItem labels mem n := by
  unfold firstItem
  apply List.map_congr_left
  intro jj hjj
  have hjj1 := List.mem_range.mp hjj
  have hlt : jj < len := by omega
  have hw : wrapCInt jj = jj := wrapCInt_of_bounds _ (by omega) (by omega)
  have hg : ((List.range len).map mem).getD (0 * n + jj) 0 = mem jj := by
    rw [List.getD_eq_getElem _ _ (by simpa using hlt)]
    simp
  simp only [triple, hw, hg]

/-- Past its guards, `ReadPredictionOutput` is the five reads on the sorted
triples of batch item 0: the rankings of the other items are computed and
never read. -/
theorem ReadPredictionOutput_item0 (R : Runtime σ) (framework : String) (pd : PredictorData)
    (labelFile : String) (w : World σ) (n : Nat) (mem : Nat → ℚ) (labels : List String)
    (hfw : framework = "Tensorflow Lite" ∨ framework = "Qualcomm SNPE")
    (hctx : pd.ctx ≠ 0) (hb : 1 ≤ pd.batch) (hn : 1 ≤ n) (hcap : pd.batch * n ≤ 2 ^ 15)
    (hlen : reportedPredLen R framework pd.ctx w.native = n)
    (hpred : reportedPredictions R framework pd.ctx
      (stateAfterPredLen R framework pd.ctx w.native) = some mem)
    (hlabels : R.readLines labelFile = some labels) (hlines : n ≤ labels.length) :
    (ReadPredictionOutput R framework (some pd) labelFile w).1 =
      (topConcatenated [R.sortFeatures (firstItem labels mem n)]).bind fun s =>
        .ret (s, none) := by
  rw [ReadPredictionOutput_ranked R framework pd labelFile w n mem labels hfw hctx hb hn hcap
    hlen hpred hlabels]
  have hlenS : ((List.range (pd.batch * n).toNat).map mem).length = (pd.batch * n).toNat := by
    simp
  rw [rankItems_ret R.sortFeatures labels _ n (List.range pd.batch.toNat) (by
    intro ii hii jj hjj
    refine ⟨by omega, ?_⟩
    rw [hlenS]
    exact item_index_lt pd.batch n _ ii jj rfl hb (List.mem_range.mp hii) hjj)]
  simp only [Result.bind]
  have hB : 0 < pd.batch.toNat := by omega
  have hle : n ≤ (pd.batch * n).toNat := by
    have := item_index_lt pd.batch n _ 0 (n - 1) rfl hb hB (by omega)
    omega
  have hcapN : (pd.batch * n).toNat ≤ 2 ^ 15 := by
    have h0 : 0 ≤ pd.batch * n := Int.mul_nonneg (by omega) (Int.ofNat_nonneg n)
    have h1 : ((pd.batch * n).toNat : Int) = pd.batch * n := Int.toNat_of_nonneg h0
    have h2 : ((pd.batch * n).toNat : Int) ≤ 2 ^ 15 := by omega
    exact_mod_cast h2
  rw [topConcatenated_congr _ [R.sortFeatures (firstItem labels mem n)] (by
    rw [← row_zero_eq labels mem n _ hle hcapN]
    cases hr : pd.batch.toNat with
    | zero => omega
    | succ k => simp [List.range_succ_eq_map])]

/-! ## What a successful `ReadPredictionOutput` implies -/

theorem range_toNat_cons (b : Int) (hb : 1 ≤ b) :
    ∃ rest, List.range b.toNat = 0 :: rest := by
  cases hr : b.toNat with
  | zero => omega
  | succ k => exact ⟨_, List.range_succ_eq_map k⟩

/-- Lines 169 to 205 return only if the batch size is positive, the label file
opens and the per-item length is at least 5 and at most the number of labels. -/
theorem rankAndJoin_ret_inv (R : Runtime σ) (batchSize : Int) (labelFile : String)
    (slice : List ℚ) (w : World σ) (s : String) (e : Option GoError) (hb0 : batchSize ≠ 0)
    (h : (rankAndJoin R batchSize labelFile slice w).1 = .ret (s, e)) :
    1 ≤ batchSize ∧ ∃ labels, R.readLines labelFile = some labels ∧
      5 ≤ (Int.tdiv (slice.length : Int) batchSize).toNat ∧
      (Int.tdiv (slice.length : Int) batchSize).toNat ≤ labels.length := by
  unfold rankAndJoin at h
  cases hl : R.readLines labelFile with
  | none => simp [hl] at h
  | some labels =>
    simp only [hl] at h
    split at h
    · simp at h
    · rename_i hneg
      have hneg1 : ¬ batchSize < 0 := fun h0 => hneg (Or.inl h0)
      have hb : 1 ≤ batchSize := by omega
      refine ⟨hb, labels, rfl, ?_⟩
      simp only [Result.bind_eq_ret] at h
      obtain ⟨features, hrank, s1, htop, _⟩ := h
      obtain ⟨rest, hrange⟩ := range_toNat_cons batchSize hb
      rw [hrange] at hrank
      obtain ⟨hle, row, hrow, hlen⟩ := rankItems_ret_inv R.sortFeatures R.sortFeatures_perm
        labels slice _ 0 rest features hrank
      obtain ⟨row1, hrow1, h5⟩ := topConcatenated_ret_inv features s1 htop
      rw [hrow] at hrow1
      cases hrow1
      exact ⟨by omega, hle⟩

/-- With at least five scores per item out of at most `2 ^ 15` in all, the
product `batchSize * predLen` did not wrap and the per-item length is `predLen`. -/
theorem featuresLen_inv (b p : Int) (hb : 1 ≤ b) (hp1 : -2 ^ 31 ≤ p) (hp2 : p < 2 ^ 31)
    (hL0 : 0 ≤ wrapInt (b * p)) (hL1 : wrapInt (b * p) ≤ 2 ^ 15)
    (h5 : 5 ≤ (Int.tdiv (((wrapInt (b * p)).toNat : Nat) : Int) b).toNat) :
    (((Int.tdiv (((wrapInt (b * p)).toNat : Nat) : Int) b).toNat : Nat) : Int) = p ∧
      wrapInt (b * p) = b * p := by
  have hcast : (((wrapInt (b * p)).toNat : Nat) : Int) = wrapInt (b * p) :=
    Int.toNat_of_nonneg hL0
  rw [hcast] at h5 ⊢
  have hdiv : Int.tdiv (wrapInt (b * p)) b = wrapInt (b * p) / b :=
    Int.tdiv_eq_ediv hL0 (by omega)
  rw [hdiv] at h5 ⊢
  have hq : (5 : Int) ≤ wrapInt (b * p) / b := by omega
  have hmul : 5 * b ≤ wrapInt (b * p) := (Int.le_ediv_iff_mul_le (by omega)).mp hq
  have hbsmall : b ≤ 6553 := by omega
  have h1 : b * p < 2 ^ 63 := by nlinarith
  have h2 : -2 ^ 63 ≤ b * p := by nlinarith
  have hw : wrapInt (b * p) = b * p := wrapInt_of_bounds _ h2 h1
  rw [hw] at h5 ⊢
  rw [Int.mul_ediv_cancel_left _ (by omega : b ≠ 0)] at h5 ⊢
  exact ⟨Int.toNat_of_nonneg (by omega), rfl⟩

/-- What lines 149 to 205 need in order to return a string and no error. -/
theorem readWithPredLen_ret_inv (R : Runtime σ) (framework : String) (pd : PredictorData)
    (labelFile : String) (predLen : Int) (w : World σ) (s : String)
    (hb0 : pd.batch ≠ 0) (hp1 : -2 ^ 31 ≤ predLen) (hp2 : predLen < 2 ^ 31)
    (h : (readWithPredLen R framework pd labelFile predLen w).1 = .ret (s, none)) :
    (framework = "Tensorflow Lite" ∨ framework = "Qualcomm SNPE") ∧ 5 ≤ predLen ∧
      ∃ labels, R.readLines labelFile = some labels ∧ predLen ≤ labels.length := by
  have key : ∀ (cPredictions : Nat → ℚ) (w1 : World σ),
      (sliceAndRank R pd.batch labelFile cPredictions (wrapInt (pd.batch * predLen)) w1).1 =
        .ret (s, none) →
      5 ≤ predLen ∧ ∃ labels, R.readLines labelFile = some labels ∧
        predLen ≤ labels.length := by
    intro cPredictions w1 hs
    unfold sliceAndRank at hs
    split at hs
    · rename_i hL
      obtain ⟨hb, labels, hlabels, h5, hle⟩ := rankAndJoin_ret_inv R _ _ _ _ _ _ hb0 hs
      simp only [List.length_map, List.length_range] at h5 hle
      obtain ⟨heq, _⟩ := featuresLen_inv pd.batch predLen hb hp1 hp2 hL.1 hL.2 h5
      refine ⟨by omega, labels, hlabels, by omega⟩
    · simp at hs
  unfold readWithPredLen at h
  simp only at h
  split at h
  · simp at h
  · split at h
    · split at h
      · simp at h
      · exact ⟨Or.inl ‹_›, key _ _ h⟩
    · split at h
      · split at h
        · simp at h
        · exact ⟨Or.inr ‹_›, key _ _ h⟩
      · obtain ⟨_, _, _, h5, _⟩ := rankAndJoin_ret_inv R _ _ _ _ _ _ hb0 h
        simp at h5

/-- What `ReadPredictionOutput` needs in order to return a string and no error. -/
theorem ReadPredictionOutput_ret_inv (R : Runtime σ) (framework : String) (pd : PredictorData)
    (labelFile : String) (w : World σ) (s : String)
    (h : (ReadPredictionOutput R framework (some pd) labelFile w).1 = .ret (s, none)) :
    (framework = "Tensorflow Lite" ∨ framework = "Qualcomm SNPE") ∧
      5 ≤ reportedPredLen R framework pd.ctx w.native ∧
      ∃ labels, R.readLines labelFile = some labels ∧
        reportedPredLen R framework pd.ctx w.native ≤ labels.length := by
  unfold ReadPredictionOutput at h
  simp only at h
  split at h
  · simp at h
  · rename_i hb0
    split at h
    · rename_i hfw
      split at h
      · simp at h
      · have hr := wrapCInt_range (R.GetPredLenTflite pd.ctx w.native).1
        have := readWithPredLen_ret_inv R _ _ _ _ _ _ hb0 hr.1 hr.2 h
        simpa [reportedPredLen, hfw] using this
    · rename_i hfw
      split at h
      · rename_i hfw2
        split at h
        · simp at h
        · have hr := wrapCInt_range (R.GetPredLenSnpe pd.ctx w.native).1
          have := readWithPredLen_ret_inv R _ _ _ _ _ _ hb0 hr.1 hr.2 h
          simpa [reportedPredLen, hfw, hfw2] using this
      · rename_i hfw2
        have := readWithPredLen_ret_inv R _ _ _ _ _ _ hb0 (by norm_num) (by norm_num) h
        exact absurd this.1 (by simp [hfw, hfw2])

/-! ## `New` -/

/-- C1. When the model path is not an existing file, `New` returns no handle and
the error `file <model> not found`, whatever the backend name, mode, batch
size and flags are; the only call it has made is `com.IsFile`, so no engine
constructor ran and the native state is untouched. -/
theorem New_model_not_found (R : Runtime σ) (framework model : String) (mode batch : Int)
    (verbose profile : Bool) (w : World σ) (h : R.IsFile model = false) :
    New R framework model mode batch verbose profile w =
      ((none, some ⟨"file " ++ model ++ " not found"⟩),
        ⟨w.native, w.calls ++ [Call.IsFile model]⟩) := by
  simp [New, h, World.after]

/-- No file exists: `New` on `model.tflite` reports it missing. -/
theorem New_model_not_found_witness :
    (demoRuntime [] 5 [] []).IsFile "model.tflite" = false ∧
    New (demoRuntime [] 5 [] []) "Tensorflow Lite" "model.tflite" CPU_4_thread 1 false false
        World.init =
      ((none, some ⟨"file model.tflite not found"⟩), ⟨(), [Call.IsFile "model.tflite"]⟩) :=
  ⟨by decide,
    New_model_not_found (demoRuntime [] 5 [] []) "Tensorflow Lite" "model.tflite"
      CPU_4_thread 1 false false World.init (by decide)⟩

/-- C2. When the model path is an existing file, `New` returns the error
`<framework> framework not supported` exactly when the backend name is neither
`Tensorflow Lite` nor `Qualcomm SNPE`; for either of those names it returns a
handle (holding the constructor's context, the mode and the batch size) and
no error. -/
theorem New_unsupported_iff (R : Runtime σ) (framework model : String) (mode batch : Int)
    (verbose profile : Bool) (w : World σ) (h : R.IsFile model = true) :
    ((New R framework model mode batch verbose profile w).1.2 =
        some ⟨framework ++ " framework not supported"⟩ ↔
      ¬ (framework = "Tensorflow Lite" ∨ framework = "Qualcomm SNPE")) ∧
    (framework = "Tensorflow Lite" ∨ framework = "Qualcomm SNPE" →
      ∃ ctx, (New R framework model mode batch verbose profile w).1 =
        (some ⟨ctx, mode, batch⟩, none)) := by
  by_cases h1 : framework = "Tensorflow Lite"
  · simp [New, h, h1]
  · by_cases h2 : framework = "Qualcomm SNPE"
    · simp [New, h, h2]
    · simp [New, h, h1, h2]

/-- The model file exists and the backend name is `Caffe`. -/
theorem New_unsupported_iff_witness :
    (((New (demoRuntime ["model.dlc"] 5 [] []) "Caffe" "model.dlc" GPU 1 false false
          World.init).1.2 = some ⟨"Caffe" ++ " framework not supported"⟩ ↔
        ¬ ("Caffe" = "Tensorflow Lite" ∨ "Caffe" = "Qualcomm SNPE")) ∧
      ("Caffe" = "Tensorflow Lite" ∨ "Caffe" = "Qualcomm SNPE" →
        ∃ ctx, (New (demoRuntime ["model.dlc"] 5 [] []) "Caffe" "model.dlc" GPU 1 false false
          World.init).1 = (some ⟨ctx, GPU, 1⟩, none))) :=
  New_unsupported_iff (demoRuntime ["model.dlc"] 5 [] []) "Caffe" "model.dlc" GPU 1
    false false World.init (by decide)

/-! ## `Predict` -/

/-- C3. With zero-length data `Predict` returns the error `image data is empty`,
whatever the backend name, the handle (nil included) and the quantized flag
are, and it makes no call: the world is the one it was given. -/
theorem Predict_empty_input (R : Runtime σ) (framework : String) (p : Option PredictorData)
    (data : List Nat) (quantize : Bool) (w : World σ) (h : data.length = 0) :
    Predict R framework p data quantize w = (.ret (some ⟨"image data is empty"⟩), w) := by
  simp [Predict, h]

/-- An empty byte slice handed to `Predict`. -/
theorem Predict_empty_input_witness :
    ([] : List Nat).length = 0 ∧
    Predict (demoRuntime [] 5 [] []) "Qualcomm SNPE" (some ⟨1, DSP, 1⟩) [] true World.init =
      (.ret (some ⟨"image data is empty"⟩), World.init) :=
  ⟨rfl, Predict_empty_input (demoRuntime [] 5 [] []) "Qualcomm SNPE" (some ⟨1, DSP, 1⟩) []
    true World.init rfl⟩

/-! ## `ReadPredictionOutput`: the guards -/

/-- C4. On a handle whose batch size is 0, `ReadPredictionOutput` returns the
empty string and the error `null batch`, whatever the backend name, the
context and the label file are, and it makes no call: no engine query and no
read of the label file. -/
theorem ReadPredictionOutput_null_batch (R : Runtime σ) (framework : String)
    (pd : PredictorData) (labelFile : String) (w : World σ) (h : pd.batch = 0) :
    ReadPredictionOutput R framework (some pd) labelFile w =
      (.ret ("", some ⟨"null batch"⟩), w) := by
  simp [ReadPredictionOutput, h]

/-- A handle with batch size 0. -/
theorem ReadPredictionOutput_null_batch_witness :
    (⟨1, CPU_1_thread, 0⟩ : PredictorData).batch = 0 ∧
    ReadPredictionOutput (demoRuntime [] 5 [] []) "Tensorflow Lite"
        (some ⟨1, CPU_1_thread, 0⟩) "labels.txt" World.init =
      (.ret ("", some ⟨"null batch"⟩), World.init) :=
  ⟨rfl, ReadPredictionOutput_null_batch (demoRuntime [] 5 [] []) "Tensorflow Lite"
    ⟨1, CPU_1_thread, 0⟩ "labels.txt" World.init rfl⟩

/-- C8, as amended. On a handle with a non-zero batch size and a nil context,
`ReadPredictionOutput` never succeeds: it returns `null predLen` when the
backend is a recognised one whose length query answers 0 (that guard comes
first), and `empty predictor context` in every other case. -/
theorem ReadPredictionOutput_nil_context (R : Runtime σ) (framework : String)
    (pd : PredictorData) (labelFile : String) (w : World σ)
    (hb : pd.batch ≠ 0) (hctx : pd.ctx = 0) :
    (ReadPredictionOutput R framework (some pd) labelFile w).1 =
      if (framework = "Tensorflow Lite" ∨ framework = "Qualcomm SNPE") ∧
          reportedPredLen R framework pd.ctx w.native = 0
      then .ret ("", some ⟨"null predLen"⟩)
      else .ret ("", some ⟨"empty predictor context"⟩) := by
  by_cases h1 : framework = "Tensorflow Lite"
  · by_cases h0 : wrapCInt (R.GetPredLenTflite 0 w.native).1 = 0 <;>
      simp [ReadPredictionOutput, reportedPredLen, readWithPredLen, hb, hctx, h1, h0]
  · by_cases h2 : framework = "Qualcomm SNPE"
    · by_cases h0 : wrapCInt (R.GetPredLenSnpe 0 w.native).1 = 0 <;>
        simp [ReadPredictionOutput, reportedPredLen, readWithPredLen, hb, hctx, h2, h0]
    · simp [ReadPredictionOutput, reportedPredLen, readWithPredLen, hb, hctx, h1, h2]

/-- A nil context, batch size 1 and a length query answering 5. -/
theorem ReadPredictionOutput_nil_context_witness :
    (ReadPredictionOutput (demoRuntime [] 5 [] []) "Qualcomm SNPE"
        (some ⟨0, CPU_1_thread, 1⟩) "labels.txt" World.init).1 =
      if ("Qualcomm SNPE" = "Tensorflow Lite" ∨ "Qualcomm SNPE" = "Qualcomm SNPE") ∧
          reportedPredLen (demoRuntime [] 5 [] []) "Qualcomm SNPE" 0 () = 0
      then .ret ("", some ⟨"null predLen"⟩)
      else .ret ("", some ⟨"empty predictor context"⟩) :=
  ReadPredictionOutput_nil_context (demoRuntime [] 5 [] []) "Qualcomm SNPE"
    ⟨0, CPU_1_thread, 1⟩ "labels.txt" World.init (by decide) rfl

/-- C8 as stated fails: with the recognised backend `Tensorflow Lite`, batch
size 1, a nil context and a length query answering 0, the call returns
`null predLen`, not `empty predictor context`. -/
theorem ReadPredictionOutput_nil_context_counterexample :
    (ReadPredictionOutput (demoRuntime [] 0 [] []) "Tensorflow Lite"
        (some ⟨0, CPU_1_thread, 1⟩) "labels.txt" World.init).1 =
      .ret ("", some ⟨"null predLen"⟩) ∧
    (ReadPredictionOutput (demoRuntime [] 0 [] []) "Tensorflow Lite"
        (some ⟨0, CPU_1_thread, 1⟩) "labels.txt" World.init).1 ≠
      .ret ("", some ⟨"empty predictor context"⟩) := by
  decide

/-! ## `Close` -/

/-- C7, as amended. After `New` succeeds on a recognised backend and `Close` is
called on the handle it returned, the handle is unchanged (its context is the
one the constructor answered, not a nil marker). A later `Predict` never
answers `empty predictor context`: it returns no error for non-empty data and
`image data is empty` otherwise. A later `ReadPredictionOutput` answers
`empty predictor context` only if the constructor itself had answered nil. -/
theorem Close_keeps_context (R : Runtime σ) (framework model : String) (mode batch : Int)
    (verbose profile : Bool) (w : World σ) (hfile : R.IsFile model = true)
    (hfw : framework = "Tensorflow Lite" ∨ framework = "Qualcomm SNPE") :
    ∃ pd w1, (New R framework model mode batch verbose profile w).1 = (some pd, none) ∧
      newThenClose R framework model mode batch verbose profile w = (.ret pd, w1) ∧
      (pd.ctx = (R.NewTflite model (wrapCInt batch) (wrapCInt mode) verbose profile w.native).1 ∨
        pd.ctx = (R.NewSnpe model (wrapCInt batch) (wrapCInt mode) verbose profile w.native).1) ∧
      (∀ data quantize, data ≠ [] →
        (Predict R framework (some pd) data quantize w1).1 = .ret none) ∧
      (∀ data quantize, data = [] →
        (Predict R framework (some pd) data quantize w1).1 =
          .ret (some ⟨"image data is empty"⟩)) ∧
      (∀ labelFile, (ReadPredictionOutput R framework (some pd) labelFile w1).1 =
          .ret ("", some ⟨"empty predictor context"⟩) → pd.ctx = 0) := by
  rcases hfw with rfl | rfl
  · refine ⟨⟨(R.NewTflite model (wrapCInt batch) (wrapCInt mode) verbose profile w.native).1,
      mode, batch⟩, (newThenClose R "Tensorflow Lite" model mode batch verbose profile w).2,
      ?_, ?_, Or.inl rfl, ?_, ?_, ?_⟩
    · simp [New, hfile, World.after]
    · exact Prod.ext (by simp [newThenClose, New, Close, hfile, World.after]) rfl
    · intro data quantize hd
      cases quantize <;> simp [Predict, hd]
    · intro data quantize hd
      simp [Predict, hd]
    · intro labelFile h
      exact ReadPredictionOutput_empty_context R _ _ _ _ h
  · refine ⟨⟨(R.NewSnpe model (wrapCInt batch) (wrapCInt mode) verbose profile w.native).1,
      mode, batch⟩, (newThenClose R "Qualcomm SNPE" model mode batch verbose profile w).2,
      ?_, ?_, Or.inr rfl, ?_, ?_, ?_⟩
    · simp [New, hfile, World.after]
    · exact Prod.ext (by simp [newThenClose, New, Close, hfile, World.after]) rfl
    · intro data quantize hd
      cases quantize <;> simp [Predict, hd]
    · intro data quantize hd
      simp [Predict, hd]
    · intro labelFile h
      exact ReadPredictionOutput_empty_context R _ _ _ _ h

/-- Create on `Tensorflow Lite` with an existing model file, then close. -/
theorem Close_keeps_context_witness :
    ∃ pd w1, (New (demoRuntime ["model.tflite"] 5 [] []) "Tensorflow Lite" "model.tflite"
        CPU_4_thread 1 false false World.init).1 = (some pd, none) ∧
      newThenClose (demoRuntime ["model.tflite"] 5 [] []) "Tensorflow Lite" "model.tflite"
        CPU_4_thread 1 false false World.init = (.ret pd, w1) ∧
      (pd.ctx = ((demoRuntime ["model.tflite"] 5 [] []).NewTflite "model.tflite"
          (wrapCInt 1) (wrapCInt CPU_4_thread) false false World.init.native).1 ∨
        pd.ctx = ((demoRuntime ["model.tflite"] 5 [] []).NewSnpe "model.tflite"
          (wrapCInt 1) (wrapCInt CPU_4_thread) false false World.init.native).1) ∧
      (∀ data quantize, data ≠ [] →
        (Predict (demoRuntime ["model.tflite"] 5 [] []) "Tensorflow Lite" (some pd) data
          quantize w1).1 = .ret none) ∧
      (∀ data quantize, data = [] →
        (Predict (demoRuntime ["model.tflite"] 5 [] []) "Tensorflow Lite" (some pd) data
          quantize w1).1 = .ret (some ⟨"image data is empty"⟩)) ∧
      (∀ labelFile, (ReadPredictionOutput (demoRuntime ["model.tflite"] 5 [] [])
          "Tensorflow Lite" (some pd) labelFile w1).1 =
          .ret ("", some ⟨"empty predictor context"⟩) → pd.ctx = 0) :=
  Close_keeps_context (demoRuntime ["model.tflite"] 5 [] []) "Tensorflow Lite"
    "model.tflite" CPU_4_thread 1 false false World.init (by decide) (Or.inl rfl)

/-- C7 as stated fails: `New` on `Tensorflow Lite` with an existing model file
and batch size 1 returns a handle with context 1; after `Close` the handle
still holds context 1, not nil, and a later `Predict` on four bytes returns
no error. -/
theorem Close_keeps_context_counterexample :
    (New (demoRuntime ["model.tflite"] 5 [] []) "Tensorflow Lite" "model.tflite"
        CPU_4_thread 1 false false World.init).1 = (some ⟨1, CPU_4_thread, 1⟩, none) ∧
    (newThenClose (demoRuntime ["model.tflite"] 5 [] []) "Tensorflow Lite" "model.tflite"
        CPU_4_thread 1 false false World.init).1 = .ret ⟨1, CPU_4_thread, 1⟩ ∧
    (⟨1, CPU_4_thread, 1⟩ : PredictorData).ctx ≠ 0 ∧
    (Predict (demoRuntime ["model.tflite"] 5 [] []) "Tensorflow Lite"
        (some ⟨1, CPU_4_thread, 1⟩) [0, 0, 128, 63] false
        (newThenClose (demoRuntime ["model.tflite"] 5 [] []) "Tensorflow Lite"
          "model.tflite" CPU_4_thread 1 false false World.init).2).1 = .ret none ∧
    (Predict (demoRuntime ["model.tflite"] 5 [] []) "Tensorflow Lite"
        (some ⟨1, CPU_4_thread, 1⟩) [0, 0, 128, 63] false
        (newThenClose (demoRuntime ["model.tflite"] 5 [] []) "Tensorflow Lite"
          "model.tflite" CPU_4_thread 1 false false World.init).2).1 ≠
      .ret (some ⟨"empty predictor context"⟩) := by
  decide

/-! ## `ReadPredictionOutput`: the ranking -/

/-! ## `ReadPredictionOutput`: the ranking -/

/-- C5. The claim fails on the code at an ordinary input: with `Tensorflow Lite`,
a non-nil context, batch size 33, 1000 scores per item, a non-NULL score
buffer of 33000 scores and a label file of 1000 lines, the slice expression
on the `[1 << 15]float32` array panics (33000 > 32768) right after the scores
are fetched; the label file is never opened and no label is returned. -/
theorem ReadPredictionOutput_slice_capacity :
    (1 : Int) ≤ 33 ∧ 5 ≤ 1000 ∧ (List.replicate 33000 (mkRat 1 1000)).length = 33 * 1000 ∧
    1000 ≤ (List.replicate 1000 "label").length ∧
    (ReadPredictionOutput
        (demoRuntime [] 1000 (List.replicate 33000 (mkRat 1 1000))
          (List.replicate 1000 "label"))
        "Tensorflow Lite" (some ⟨1, CPU_4_thread, 33⟩) "labels.txt" World.init).1 =
      .panic (.sliceBounds 33000) ∧
    (ReadPredictionOutput
        (demoRuntime [] 1000 (List.replicate 33000 (mkRat 1 1000))
          (List.replicate 1000 "label"))
        "Tensorflow Lite" (some ⟨1, CPU_4_thread, 33⟩) "labels.txt" World.init).2.calls =
      [Call.GetPredLenTflite 1, Call.GetPredictionsTflite 1] :=
  ⟨by decide, by decide, List.length_replicate 33000 (mkRat 1 1000),
    le_of_eq (List.length_replicate 1000 "label").symm, by decide, by decide⟩

/-- With an unrecognised backend name, a non-nil context, a label file that
opens and a batch size `make` rejects (negative, or too large), the call
panics at `make([]dlframework.Features, batchSize)`. -/
theorem ReadPredictionOutput_unrecognised_make (R : Runtime σ) (framework : String)
    (pd : PredictorData) (labelFile : String) (w : World σ) (labels : List String)
    (hfw : ¬ (framework = "Tensorflow Lite" ∨ framework = "Qualcomm SNPE"))
    (hctx : pd.ctx ≠ 0) (hb0 : pd.batch ≠ 0)
    (hmake : pd.batch < 0 ∨ maxAlloc < featuresSize * pd.batch)
    (hlabels : R.readLines labelFile = some labels) :
    (ReadPredictionOutput R framework (some pd) labelFile w).1 =
      .panic (.makeSliceLen pd.batch) := by
  have h1 : framework ≠ "Tensorflow Lite" := fun h => hfw (Or.inl h)
  have h2 : framework ≠ "Qualcomm SNPE" := fun h => hfw (Or.inr h)
  have hstep : (ReadPredictionOutput R framework (some pd) labelFile w).1 =
      (rankAndJoin R pd.batch labelFile [] w).1 := by
    simp [ReadPredictionOutput, readWithPredLen, hb0, h1, h2, hctx]
  rw [hstep]
  unfold rankAndJoin
  simp only [hlabels, hmake, if_true]

/-- With an unrecognised backend name, a non-nil context, a label file that
opens and a batch size from 1 up to what `make` accepts, every ranking is
empty and the read `features[0][0]` panics. -/
theorem ReadPredictionOutput_unrecognised (R : Runtime σ) (framework : String)
    (pd : PredictorData) (labelFile : String) (w : World σ) (labels : List String)
    (hfw : ¬ (framework = "Tensorflow Lite" ∨ framework = "Qualcomm SNPE"))
    (hctx : pd.ctx ≠ 0) (hb : 1 ≤ pd.batch) (hmake : featuresSize * pd.batch ≤ maxAlloc)
    (hlabels : R.readLines labelFile = some labels) :
    (ReadPredictionOutput R framework (some pd) labelFile w).1 =
      .panic (.indexOutOfRange .ranking 0 0) := by
  have h1 : framework ≠ "Tensorflow Lite" := fun h => hfw (Or.inl h)
  have h2 : framework ≠ "Qualcomm SNPE" := fun h => hfw (Or.inr h)
  have hb0 : pd.batch ≠ 0 := by omega
  have hbneg : ¬ (pd.batch < 0 ∨ maxAlloc < featuresSize * pd.batch) := by
    intro h
    rcases h with h | h <;> omega
  obtain ⟨rest, hrange⟩ := range_toNat_cons pd.batch hb
  have hrank := rankItems_ret R.sortFeatures labels [] 0 (List.range pd.batch.toNat)
    (fun _ _ jj hjj => absurd hjj (Nat.not_lt_zero jj))
  have hrow : ((List.range pd.batch.toNat).map fun ii =>
      R.sortFeatures ((List.range 0).map (triple labels [] ii 0)))[0]? =
      some (R.sortFeatures []) := by
    rw [hrange]
    simp
  have hlen : (R.sortFeatures []).length = 0 := by
    rw [(R.sortFeatures_perm []).length_eq]
    rfl
  have htop := topConcatenated_short _ _ hrow (by omega)
  rw [hlen] at htop
  have hstep : (ReadPredictionOutput R framework (some pd) labelFile w).1 =
      (rankAndJoin R pd.batch labelFile [] w).1 := by
    simp [ReadPredictionOutput, readWithPredLen, hb0, h1, h2, hctx]
  have hfl : (Int.tdiv ((([] : List ℚ).length : Nat) : Int) pd.batch).toNat = 0 := by simp
  rw [hstep]
  unfold rankAndJoin
  simp only [hlabels, hbneg, if_false, hfl, hrank, Result.bind, htop]

/-- With a recognised backend reporting `n` scores per item, `1 ≤ n ≤ 4`, and
everything else in order, the ranking of item 0 has `n` entries and the read
`features[0][n]` panics. -/
theorem ReadPredictionOutput_short_item (R : Runtime σ) (framework : String)
    (pd : PredictorData) (labelFile : String) (w : World σ) (n : Nat) (mem : Nat → ℚ)
    (labels : List String)
    (hfw : framework = "Tensorflow Lite" ∨ framework = "Qualcomm SNPE")
    (hctx : pd.ctx ≠ 0) (hb : 1 ≤ pd.batch) (hn : 1 ≤ n) (hn4 : n ≤ 4)
    (hcap : pd.batch * n ≤ 2 ^ 15)
    (hlen : reportedPredLen R framework pd.ctx w.native = n)
    (hpred : reportedPredictions R framework pd.ctx
      (stateAfterPredLen R framework pd.ctx w.native) = some mem)
    (hlabels : R.readLines labelFile = some labels) (hlines : n ≤ labels.length) :
    (ReadPredictionOutput R framework (some pd) labelFile w).1 =
      .panic (.indexOutOfRange .ranking n n) := by
  rw [ReadPredictionOutput_item0 R framework pd labelFile w n mem labels hfw hctx hb hn hcap
    hlen hpred hlabels hlines]
  have hl : (R.sortFeatures (firstItem labels mem n)).length = n := by
    rw [(R.sortFeatures_perm _).length_eq]
    simp [firstItem]
  have htop := topConcatenated_short [R.sortFeatures (firstItem labels mem n)]
    (R.sortFeatures (firstItem labels mem n)) rfl (by rw [hl]; omega)
  rw [hl] at htop
  rw [htop]
  rfl

/-- C10, as amended. Whenever `ReadPredictionOutput` returns a string and no
error, the backend name is one of the two recognised ones and the per-item
length the engine reported is at least 5; so an unrecognised name (the length
stays 0, no `unsupported` error is returned) or a reported length between 1
and 4 never leads to a result. How the call then fails, on a non-nil context
with a label file that opens: with an unrecognised name, at
`make([]dlframework.Features, batchSize)` when the batch size is negative or
too large for `make`, and at the read `features[0][0]` when it is between 1
and what `make` accepts; with a reported length `n` between 1 and 4, a batch
size `b ≥ 1` with `b * n ≤ 2 ^ 15`, a non-NULL score memory and at least `n`
labels, at the read `features[0][n]`. -/
theorem ReadPredictionOutput_success_needs (R : Runtime σ) (framework : String)
    (pd : PredictorData) (labelFile : String) (w : World σ) :
    (∀ s, (ReadPredictionOutput R framework (some pd) labelFile w).1 = .ret (s, none) →
      (framework = "Tensorflow Lite" ∨ framework = "Qualcomm SNPE") ∧
        5 ≤ reportedPredLen R framework pd.ctx w.native) ∧
    (∀ labels, ¬ (framework = "Tensorflow Lite" ∨ framework = "Qualcomm SNPE") →
      pd.ctx ≠ 0 → pd.batch ≠ 0 → R.readLines labelFile = some labels →
      (pd.batch < 0 ∨ maxAlloc < featuresSize * pd.batch →
        (ReadPredictionOutput R framework (some pd) labelFile w).1 =
          .panic (.makeSliceLen pd.batch)) ∧
      (1 ≤ pd.batch → featuresSize * pd.batch ≤ maxAlloc →
        (ReadPredictionOutput R framework (some pd) labelFile w).1 =
          .panic (.indexOutOfRange .ranking 0 0))) ∧
    (∀ (n : Nat) (mem : Nat → ℚ) (labels : List String),
      (framework = "Tensorflow Lite" ∨ framework = "Qualcomm SNPE") →
      pd.ctx ≠ 0 → 1 ≤ pd.batch → 1 ≤ n → n ≤ 4 → pd.batch * n ≤ 2 ^ 15 →
      reportedPredLen R framework pd.ctx w.native = n →
      reportedPredictions R framework pd.ctx (stateAfterPredLen R framework pd.ctx w.native) =
        some mem →
      R.readLines labelFile = some labels → n ≤ labels.length →
      (ReadPredictionOutput R framework (some pd) labelFile w).1 =
        .panic (.indexOutOfRange .ranking n n)) :=
  ⟨fun s h => ⟨(ReadPredictionOutput_ret_inv R framework pd labelFile w s h).1,
      (ReadPredictionOutput_ret_inv R framework pd labelFile w s h).2.1⟩,
    fun labels hfw hctx hb0 hlabels =>
      ⟨fun hmake => ReadPredictionOutput_unrecognised_make R framework pd labelFile w labels
          hfw hctx hb0 hmake hlabels,
        fun hb hmake => ReadPredictionOutput_unrecognised R framework pd labelFile w labels
          hfw hctx hb hmake hlabels⟩,
    fun n mem labels hfw hctx hb hn hn4 hcap hlen hpred hlabels hlines =>
      ReadPredictionOutput_short_item R framework pd labelFile w n mem labels hfw hctx hb hn
        hn4 hcap hlen hpred hlabels hlines⟩

/-- Batch size 2 with five scores per item returns a string, on a recognised
backend reporting length 5; the same scores under the name `Caffe` panic at
`features[0][0]`; a length of 3 panics at `features[0][3]`. -/
theorem ReadPredictionOutput_success_needs_witness :
    ((ReadPredictionOutput (demoRuntime [] 5 (demoScores ++ demoScores) demoLabels)
        "Tensorflow Lite" (some ⟨1, CPU_4_thread, 2⟩) "labels.txt" World.init).1 =
      .ret ("dog|fish|cat|bird|frog", none) ∧
    ("Tensorflow Lite" = "Tensorflow Lite" ∨ "Tensorflow Lite" = "Qualcomm SNPE") ∧
      5 ≤ reportedPredLen (demoRuntime [] 5 (demoScores ++ demoScores) demoLabels)
        "Tensorflow Lite" 1 ()) ∧
    (ReadPredictionOutput (demoRuntime [] 5 (demoScores ++ demoScores) demoLabels)
        "Caffe" (some ⟨1, CPU_4_thread, 2⟩) "labels.txt" World.init).1 =
      .panic (.indexOutOfRange .ranking 0 0) ∧
    (ReadPredictionOutput (demoRuntime [] 3 (demoScores ++ demoScores) demoLabels)
        "Qualcomm SNPE" (some ⟨1, CPU_4_thread, 2⟩) "labels.txt" World.init).1 =
      .panic (.indexOutOfRange .ranking 3 3) :=
  ⟨⟨by decide,
      (ReadPredictionOutput_success_needs (demoRuntime [] 5 (demoScores ++ demoScores) demoLabels)
        "Tensorflow Lite" ⟨1, CPU_4_thread, 2⟩ "labels.txt" World.init).1
        "dog|fish|cat|bird|frog" (by decide)⟩,
    ((ReadPredictionOutput_success_needs (demoRuntime [] 5 (demoScores ++ demoScores) demoLabels)
        "Caffe" ⟨1, CPU_4_thread, 2⟩ "labels.txt" World.init).2.1 demoLabels (by decide)
        (by decide) (by decide) rfl).2 (by decide) (by decide),
    (ReadPredictionOutput_success_needs (demoRuntime [] 3 (demoScores ++ demoScores) demoLabels)
        "Qualcomm SNPE" ⟨1, CPU_4_thread, 2⟩ "labels.txt" World.init).2.2 3
        (demoMem (demoScores ++ demoScores)) demoLabels (Or.inr rfl) (by decide) (by decide)
        (by decide) (by decide) (by decide) rfl rfl rfl (by decide)⟩

/-- C10 as stated fails: the call does not always get to the fixed reads. With
the unrecognised name `Caffe`, a non-nil context and the non-zero batch size
-1 it panics at `make([]dlframework.Features, batchSize)`, and with batch size
`2 ^ 62` too; with a label file that does not open it panics at `panic(err)`.
With `Tensorflow Lite` reporting 3 scores per item it returns
`empty predictions` when the score pointer is NULL, and panics at the lookup
`labels[2]` when the label file has two lines. -/
theorem ReadPredictionOutput_success_needs_counterexample :
    (ReadPredictionOutput (demoRuntime [] 5 demoScores demoLabels) "Caffe"
        (some ⟨1, CPU_4_thread, -1⟩) "labels.txt" World.init).1 = .panic (.makeSliceLen (-1)) ∧
    (ReadPredictionOutput (demoRuntime [] 5 demoScores demoLabels) "Caffe"
        (some ⟨1, CPU_4_thread, -1⟩) "labels.txt" World.init).1 ≠
      .panic (.indexOutOfRange .ranking 0 0) ∧
    (ReadPredictionOutput (demoRuntime [] 5 demoScores demoLabels) "Caffe"
        (some ⟨1, CPU_4_thread, 2 ^ 62⟩) "labels.txt" World.init).1 =
      .panic (.makeSliceLen (2 ^ 62)) ∧
    (ReadPredictionOutput (noLabelsRuntime [] 5 demoScores) "Caffe"
        (some ⟨1, CPU_4_thread, 1⟩) "labels.txt" World.init).1 =
      .panic (.openFailed "labels.txt") ∧
    (ReadPredictionOutput (nullScoresRuntime [] 3 demoLabels) "Tensorflow Lite"
        (some ⟨1, CPU_4_thread, 1⟩) "labels.txt" World.init).1 =
      .ret ("", some ⟨"empty predictions"⟩) ∧
    (ReadPredictionOutput (demoRuntime [] 3 demoScores ["cat", "dog"]) "Tensorflow Lite"
        (some ⟨1, CPU_4_thread, 1⟩) "labels.txt" World.init).1 =
      .panic (.indexOutOfRange .labels 2 2) := by
  decide

end MPredictor
